import Mathlib

/-!
Verification of the NonMessenger broker core (`server/server.js`).

The broker keeps three pieces of shared mutable state:
`messagePool : Map messageId → message`, `userSessions : Map sessionId → session`,
and `serverNodes : Set nodeEntry`.  JavaScript `Map`s iterate in insertion
order, so we embed a `Map` as an association list in insertion order with
unique keys; `Map.set` replaces in place when the key is present and appends
otherwise, `Map.delete` removes the entry and reports whether it was present.
A JavaScript `Set` holds object references, and `serverNodes.add({...})` is
always called with a freshly allocated object literal, so the set is embedded
as a list that every successful `add` appends to.

Outward channel writes (`ws.send`) either succeed or throw; each session
carries a `sendOk` flag modelling the state of its transport.
-/

namespace NonMessenger

/-- Association-list embedding of a JavaScript `Map` with string keys. -/
abbrev JsMap (α : Type) := List (String × α)

/-- JavaScript `Map.prototype.set`: replace in place when the key is present,
append otherwise. -/
def mapSet {α : Type} (m : JsMap α) (k : String) (v : α) : JsMap α :=
  if m.any (fun p => p.1 == k) then
    m.map (fun p => if p.1 == k then (k, v) else p)
  else
    m ++ [(k, v)]

/-- JavaScript `Map.prototype.get` (`none` for `undefined`). -/
def mapGet {α : Type} (m : JsMap α) (k : String) : Option α :=
  (m.find? (fun p => p.1 == k)).map (fun p => p.2)

/-- JavaScript `Map.prototype.has`. -/
def mapHas {α : Type} (m : JsMap α) (k : String) : Bool :=
  m.any (fun p => p.1 == k)

/-- JavaScript `Map.prototype.delete` (the new map; the Boolean result is
`mapHas m k`). -/
def mapDelete {α : Type} (m : JsMap α) (k : String) : JsMap α :=
  m.filter (fun p => p.1 != k)

/-- A pooled envelope, exactly the object built in `handleMessage`
(`server.js:151-159`). -/
structure Message where
  id : String
  recipientContactCode : String
  encryptedMessage : String
  timestamp : Nat
  ttl : Nat
  attempts : Nat
  maxAttempts : Nat
deriving Repr, DecidableEq

/-- The `messagePool` map from message id to envelope. -/
abbrev Pool := JsMap Message

/-- A registry entry of `userSessions`, the object built in `registerUser`
(`server.js:128-133`); `sendOk` models whether `ws.send` on this session's
channel currently succeeds or throws. -/
structure Session where
  contactCode : String
  lastSeen : Nat
  status : String
  sendOk : Bool
deriving Repr, DecidableEq

/-- The `userSessions` map from session id to session. -/
abbrev SessionMap := JsMap Session

/-- The `new_message` frame written to a recipient's channel
(`server.js:188-193`). -/
structure NewMessageFrame where
  message : String
  messageId : String
  timestamp : Nat
deriving Repr, DecidableEq

/-- Embeds `attemptDirectDelivery` (`server.js:184-202`).  The loop walks
`userSessions` in insertion order; at the first session bound to the
recipient whose `ws.send` succeeds it returns `true` immediately, while a
session whose send throws is deleted from the registry and the loop goes on.
Returns the updated session map, the frames written (session id paired with
the frame), and the Boolean result. -/
def attemptDirectDelivery : SessionMap → Message →
    SessionMap × List (String × NewMessageFrame) × Bool
  | [], _ => ([], [], false)
  | (sid, s) :: rest, m =>
    if s.contactCode == m.recipientContactCode then
      if s.sendOk then
        ((sid, s) :: rest, [(sid, ⟨m.encryptedMessage, m.id, m.timestamp⟩)], true)
      else
        attemptDirectDelivery rest m
    else
      let r := attemptDirectDelivery rest m
      ((sid, s) :: r.1, r.2.1, r.2.2)

/-- The JSON body of a publish request; `none` models an absent field.
JavaScript truthiness makes the empty string count as missing too. -/
structure PublishBody where
  recipientContactCode : Option String
  encryptedMessage : Option String
  messageId : Option String
  ttl : Option Nat
deriving Repr, DecidableEq

/-- JavaScript falsiness of an optional string field: `undefined` or `""`. -/
def falsyStr : Option String → Bool
  | none => true
  | some s => s == ""

/-- The publish response: HTTP 400 `Missing required fields`, or the
`{success:true, messageId, delivered, pooled}` record. -/
inductive PublishResponse where
  | badRequest
  | ok (messageId : String) (delivered : Bool) (pooled : Bool)
deriving Repr, DecidableEq

/-- Everything a publish changes or emits: the pool and session registry
afterwards, the `new_message` frames written, the HTTP response, and whether
`replicateToNodes` was invoked. -/
structure PublishOutcome where
  pool : Pool
  sessions : SessionMap
  frames : List (String × NewMessageFrame)
  response : PublishResponse
  replicationAttempted : Bool
deriving Repr, DecidableEq

/-- Embeds `handleMessage` (`server.js:143-182`): reject when a required
field is missing, otherwise build the envelope with `timestamp = Date.now()`
and `ttl` defaulting to 86400000, `messagePool.set` it, attempt direct
delivery, delete from the pool when delivered, replicate, and respond with
`delivered` and `pooled = !delivered`. -/
def handleMessage (now : Nat) (pool : Pool) (sessions : SessionMap)
    (body : PublishBody) : PublishOutcome :=
  if falsyStr body.recipientContactCode || falsyStr body.encryptedMessage ||
      falsyStr body.messageId then
    ⟨pool, sessions, [], .badRequest, false⟩
  else
    let mid := body.messageId.getD ""
    let msg : Message :=
      { id := mid
        recipientContactCode := body.recipientContactCode.getD ""
        encryptedMessage := body.encryptedMessage.getD ""
        timestamp := now
        ttl := body.ttl.getD 86400000
        attempts := 0
        maxAttempts := 3 }
    let pool1 := mapSet pool mid msg
    let r := attemptDirectDelivery sessions msg
    let pool2 := if r.2.2 then mapDelete pool1 mid else pool1
    ⟨pool2, r.1, r.2.1, .ok mid r.2.2 (!r.2.2), true⟩

/-- An element of the `messages` array returned by the pull endpoint
(`server.js:211-215`). -/
structure PulledMessage where
  id : String
  encryptedMessage : String
  timestamp : Nat
deriving Repr, DecidableEq

/-- Embeds `getMessages` (`server.js:204-227`): walk the pool in insertion
order, collect every envelope whose recipient matches and delete it from the
pool as it is collected.  Returns the pool afterwards and the `messages`
array.  The handler consults no clock: expiry plays no part in a pull. -/
def getMessages : Pool → String → Pool × List PulledMessage
  | [], _ => ([], [])
  | (mid, m) :: rest, c =>
    let r := getMessages rest c
    if m.recipientContactCode == c then
      (r.1, ⟨mid, m.encryptedMessage, m.timestamp⟩ :: r.2)
    else
      ((mid, m) :: r.1, r.2)

/-- Embeds `deleteMessage` (`server.js:229-240`): `messagePool.delete` and
respond with its Boolean result. -/
def deleteMessage (pool : Pool) (mid : String) : Pool × Bool :=
  (mapDelete pool mid, mapHas pool mid)

/-- An element of `serverNodes`, the object literal built in `registerNode`
(`server.js:250`). -/
structure NodeEntry where
  nodeUrl : String
  publicKey : String
  lastSeen : Nat
deriving Repr, DecidableEq

/-- The JSON body of a register-node request. -/
structure RegisterNodeBody where
  nodeUrl : Option String
  publicKey : Option String
deriving Repr, DecidableEq

/-- The register-node response: HTTP 400, or
`{success:true, registeredNodes}`. -/
inductive RegisterNodeResponse where
  | badRequest
  | ok (registeredNodes : Nat)
deriving Repr, DecidableEq

/-- Embeds `registerNode` (`server.js:242-258`).  `serverNodes` is a
JavaScript `Set` whose membership test for objects is reference identity;
`add` is called with a freshly allocated `{nodeUrl, publicKey, lastSeen}`
literal, so every successful call appends a new element. -/
def registerNode (now : Nat) (nodes : List NodeEntry)
    (body : RegisterNodeBody) : List NodeEntry × RegisterNodeResponse :=
  if falsyStr body.nodeUrl || falsyStr body.publicKey then
    (nodes, .badRequest)
  else
    let nodes1 := nodes ++ [⟨body.nodeUrl.getD "", body.publicKey.getD "", now⟩]
    (nodes1, .ok nodes1.length)

/-- Embeds `cleanupExpiredMessages` (`server.js:325-339`): delete every
envelope with `now - message.timestamp > message.ttl` (JavaScript arithmetic;
in `Nat` the truncated difference gives the same comparison because a
negative difference is never greater than a nonnegative `ttl`) and count the
deletions. -/
def cleanupExpiredMessages (now : Nat) (pool : Pool) : Pool × Nat :=
  ((pool.filter fun p => !(p.2.ttl < now - p.2.timestamp)),
   (pool.filter fun p => p.2.ttl < now - p.2.timestamp).length)

/-- The session idle timeout, `5 * 60 * 1000` ms (`server.js:343`). -/
def sessionTimeout : Nat := 5 * 60 * 1000

/-- Embeds `cleanupInactiveSessions` (`server.js:341-361`): close and delete
every session with `now - session.lastSeen > timeout`, counting deletions. -/
def cleanupInactiveSessions (now : Nat) (sessions : SessionMap) :
    SessionMap × Nat :=
  ((sessions.filter fun p => !(sessionTimeout < now - p.2.lastSeen)),
   (sessions.filter fun p => sessionTimeout < now - p.2.lastSeen).length)

/-- An inbound duplex-channel frame, discriminated on its `type` field
(`server.js:103-115`).  `registerUser`'s contact code is optional because
the field may be absent; a present non-string value behaves like `none`. -/
inductive InboundFrame where
  | registerUser (contactCode : Option String)
  | statusUpdate
  | realTimeMessage (recipientContactCode : String)
  | unknownType
deriving Repr, DecidableEq

/-- Embeds `registerUser` (`server.js:122-141`): reject a falsy contact
code, otherwise `userSessions.set(sessionId, {ws, contactCode,
lastSeen: Date.now(), status: 'online'})`. -/
def registerUser (now : Nat) (sessions : SessionMap) (sid : String)
    (wsOk : Bool) (contactCode : Option String) : SessionMap :=
  match contactCode with
  | none => sessions
  | some c =>
    if c == "" then sessions
    else mapSet sessions sid ⟨c, now, "online", wsOk⟩

/-- Embeds `forwardRealTimeMessage` (`server.js:288-299`): write the frame
to every session bound to the recipient, deleting each session whose send
throws.  No `lastSeen` field is touched. -/
def forwardRealTimeMessage (sessions : SessionMap) (recipient : String) :
    SessionMap :=
  sessions.filter fun p => !(p.2.contactCode == recipient && !p.2.sendOk)

/-- Embeds the `userSessions` effect of `handleWebSocketMessage`
(`server.js:99-120`) for a well-formed frame arriving on session `sid`:
`register_user` re-registers the session, `status_update` broadcasts over
the raw socket set without touching the registry, `real_time_message`
forwards, and an unknown type only sends an `error` frame back. -/
def handleWebSocketMessage (now : Nat) (sessions : SessionMap) (sid : String)
    (wsOk : Bool) : InboundFrame → SessionMap
  | .registerUser c => registerUser now sessions sid wsOk c
  | .statusUpdate => sessions
  | .realTimeMessage r => forwardRealTimeMessage sessions r
  | .unknownType => sessions

/-!
General lemmas about the map embedding, the delivery loop, and the pull
handler, shared by the claim theorems below.
-/

theorem find_map_replace {α : Type} (m : JsMap α) (k : String) (v : α)
    (h : m.any (fun p => p.1 == k) = true) :
    (m.map (fun p => if p.1 == k then (k, v) else p)).find? (fun p => p.1 == k)
      = some (k, v) := by
  induction m with
  | nil => simp at h
  | cons p rest ih =>
    simp only [List.any_cons, Bool.or_eq_true] at h
    by_cases hk : (p.1 == k) = true
    · simp [List.find?, hk]
    · have h2 : rest.any (fun q => q.1 == k) = true := by tauto
      rw [List.map_cons, if_neg hk, List.find?_cons_of_neg (p := fun (q : String × α) => q.1 == k) _ hk, ih h2]

theorem find_append_missing {α : Type} (m : JsMap α) (k : String) (v : α)
    (h : m.any (fun p => p.1 == k) = false) :
    (m ++ [(k, v)]).find? (fun p => p.1 == k) = some (k, v) := by
  induction m with
  | nil => simp [List.find?]
  | cons p rest ih =>
    simp only [List.any_cons, Bool.or_eq_false_iff] at h
    simp [List.find?, h.1, ih h.2]

theorem mapGet_mapSet_self {α : Type} (m : JsMap α) (k : String) (v : α) :
    mapGet (mapSet m k v) k = some v := by
  unfold mapSet mapGet
  split
  · rename_i h; rw [find_map_replace m k v h]; rfl
  · rename_i h
    rw [find_append_missing m k v (by revert h; cases hm : m.any (fun p => p.1 == k) <;> simp)]
    rfl

theorem mapGet_mapDelete_self {α : Type} (m : JsMap α) (k : String) :
    mapGet (mapDelete m k) k = none := by
  unfold mapDelete mapGet
  induction m with
  | nil => rfl
  | cons p rest ih =>
    by_cases hk : (p.1 == k) = true
    · simp only [List.filter_cons, bne, hk, Bool.not_true, if_false]
      exact ih
    · simp only [List.filter_cons, bne, hk, Bool.not_false, if_true]
      rw [List.find?_cons_of_neg (p := fun (q : String × α) => q.1 == k) _ hk]
      exact ih

theorem mapHas_mapDelete_self {α : Type} (m : JsMap α) (k : String) :
    mapHas (mapDelete m k) k = false := by
  unfold mapDelete mapHas
  induction m with
  | nil => rfl
  | cons p rest ih =>
    by_cases hk : (p.1 == k) = true
    · simp only [List.filter_cons, bne, hk, Bool.not_true, if_false]
      exact ih
    · simp only [List.filter_cons, bne, hk, Bool.not_false, if_true]
      simp only [List.any_cons, hk, Bool.false_or]
      exact ih

theorem mapDelete_mapDelete {α : Type} (m : JsMap α) (k : String) :
    mapDelete (mapDelete m k) k = mapDelete m k := by
  unfold mapDelete
  rw [List.filter_filter]
  simp


theorem attemptDirectDelivery_delivered (ss : SessionMap) (m : Message) :
    (attemptDirectDelivery ss m).2.2
      = ss.any (fun p => p.2.contactCode == m.recipientContactCode && p.2.sendOk) := by
  induction ss with
  | nil => rfl
  | cons p rest ih =>
    obtain ⟨sid, s⟩ := p
    by_cases hc : (s.contactCode == m.recipientContactCode) = true
    · by_cases hs : s.sendOk = true
      · simp [attemptDirectDelivery, hc, hs]
      · simp [attemptDirectDelivery, hc, hs, ih]
    · simp [attemptDirectDelivery, hc, ih]

theorem attemptDirectDelivery_frames_length (ss : SessionMap) (m : Message) :
    (attemptDirectDelivery ss m).2.1.length
      = (if (attemptDirectDelivery ss m).2.2 then 1 else 0) := by
  induction ss with
  | nil => rfl
  | cons p rest ih =>
    obtain ⟨sid, s⟩ := p
    by_cases hc : (s.contactCode == m.recipientContactCode) = true
    · by_cases hs : s.sendOk = true
      · simp [attemptDirectDelivery, hc, hs]
      · simp [attemptDirectDelivery, hc, hs, ih]
    · simp [attemptDirectDelivery, hc, ih]

theorem attemptDirectDelivery_frames_sound (ss : SessionMap) (m : Message) :
    ∀ sf ∈ (attemptDirectDelivery ss m).2.1,
      sf.2 = ⟨m.encryptedMessage, m.id, m.timestamp⟩ ∧
      ∃ s : Session, (sf.1, s) ∈ ss ∧
        s.contactCode = m.recipientContactCode ∧ s.sendOk = true := by
  induction ss with
  | nil => intro sf hsf; simp [attemptDirectDelivery] at hsf
  | cons p rest ih =>
    obtain ⟨sid, s⟩ := p
    intro sf hsf
    by_cases hc : (s.contactCode == m.recipientContactCode) = true
    · by_cases hs : s.sendOk = true
      · simp only [attemptDirectDelivery, hc, hs, if_true] at hsf
        simp only [List.mem_singleton] at hsf
        subst hsf
        refine ⟨rfl, s, List.mem_cons_self _ _, ?_, hs⟩
        exact eq_of_beq hc
      · simp only [attemptDirectDelivery, hc, hs, if_true, if_false] at hsf
        obtain ⟨h1, s2, h2, h3, h4⟩ := ih sf hsf
        exact ⟨h1, s2, List.mem_cons_of_mem _ h2, h3, h4⟩
    · simp only [attemptDirectDelivery, hc, if_false] at hsf
      obtain ⟨h1, s2, h2, h3, h4⟩ := ih sf hsf
      exact ⟨h1, s2, List.mem_cons_of_mem _ h2, h3, h4⟩

theorem getMessages_eq (pool : Pool) (c : String) :
    getMessages pool c
      = (pool.filter (fun p => p.2.recipientContactCode != c),
         (pool.filter (fun p => p.2.recipientContactCode == c)).map
           (fun p => ⟨p.1, p.2.encryptedMessage, p.2.timestamp⟩)) := by
  induction pool with
  | nil => rfl
  | cons p rest ih =>
    obtain ⟨mid, msg⟩ := p
    by_cases hc : (msg.recipientContactCode == c) = true
    · simp [getMessages, hc, ih, List.filter_cons, bne]
    · simp [getMessages, hc, ih, List.filter_cons, bne]



theorem length_filter_not_add_length_filter {α : Type} (l : List α) (f : α → Bool) :
    (l.filter fun a => !f a).length + (l.filter f).length = l.length := by
  induction l with
  | nil => rfl
  | cons a rest ih =>
    cases hf : f a <;> simp [List.filter_cons, hf] <;> omega

/-- C1: the claim that every session bound to the recipient receives the
`new_message` frame fails: with sessions `s1` and `s2` both bound to `"R"`
and both healthy, one publish writes the frame to `s1` only. -/
theorem C1_counterexample :
    (handleMessage 100 []
        [("s1", ⟨"R", 0, "online", true⟩), ("s2", ⟨"R", 0, "online", true⟩)]
        ⟨some "R", some "X", some "m1", none⟩).frames
      = [("s1", ⟨"X", "m1", 100⟩)] := by decide

/-- C1 (amended): when at least one session bound to the envelope's
recipient has a working channel, a publish pushes exactly one `new_message`
frame; it carries the envelope's payload, identifier and timestamp and goes
to a session bound to the recipient with a working channel, and the other
bound sessions receive nothing. -/
theorem C1_push_single_session (sessions : SessionMap) (m : Message)
    (h : ∃ p ∈ sessions, p.2.contactCode = m.recipientContactCode ∧ p.2.sendOk = true) :
    (attemptDirectDelivery sessions m).2.1.length = 1 ∧
    ∀ sf ∈ (attemptDirectDelivery sessions m).2.1,
      sf.2 = ⟨m.encryptedMessage, m.id, m.timestamp⟩ ∧
      ∃ s : Session, (sf.1, s) ∈ sessions ∧
        s.contactCode = m.recipientContactCode ∧ s.sendOk = true := by
  constructor
  · rw [attemptDirectDelivery_frames_length, attemptDirectDelivery_delivered]
    have hany : sessions.any
        (fun p => p.2.contactCode == m.recipientContactCode && p.2.sendOk) = true := by
      rw [List.any_eq_true]
      obtain ⟨p, hp, h1, h2⟩ := h
      exact ⟨p, hp, by simp [h1, h2]⟩
    rw [hany]
    rfl
  · exact attemptDirectDelivery_frames_sound sessions m

theorem C1_push_single_session_witness :
    (attemptDirectDelivery
        [("s1", ⟨"R", 0, "online", true⟩), ("s2", ⟨"R", 0, "online", true⟩)]
        ⟨"m1", "R", "X", 100, 1000, 0, 3⟩).2.1.length = 1 ∧
    ∀ sf ∈ (attemptDirectDelivery
        [("s1", ⟨"R", 0, "online", true⟩), ("s2", ⟨"R", 0, "online", true⟩)]
        ⟨"m1", "R", "X", 100, 1000, 0, 3⟩).2.1,
      sf.2 = ⟨"X", "m1", 100⟩ ∧
      ∃ s : Session,
        (sf.1, s) ∈ [("s1", (⟨"R", 0, "online", true⟩ : Session)),
                     ("s2", ⟨"R", 0, "online", true⟩)] ∧
        s.contactCode = "R" ∧ s.sendOk = true :=
  C1_push_single_session _ _
    ⟨("s1", ⟨"R", 0, "online", true⟩), by decide, rfl, rfl⟩


/-- C2: the claim that a duplicate insert reports `duplicate` and retains
the existing entry unchanged fails: publishing id `"m1"` with payload `"A"`
and then again with payload `"B"` leaves the pool holding the second
envelope (payload `"B"`, timestamp of the second publish), and the second
response is an ordinary success with no duplicate indication. -/
theorem C2_counterexample :
    mapGet (handleMessage 5
        (handleMessage 0 [] [] ⟨some "R", some "A", some "m1", some 1000⟩).pool
        [] ⟨some "R", some "B", some "m1", some 1000⟩).pool "m1"
      = some ⟨"m1", "R", "B", 5, 1000, 0, 3⟩ ∧
    (handleMessage 5
        (handleMessage 0 [] [] ⟨some "R", some "A", some "m1", some 1000⟩).pool
        [] ⟨some "R", some "B", some "m1", some 1000⟩).response
      = .ok "m1" false true := by decide

/-- C2 (amended): an insert whose identifier is already pooled overwrites
the existing entry with the newly built envelope and responds like any
fresh publish; no duplicate is reported and the prior entry is not
retained.  Stated for a publish with no bound sessions, so the envelope
stays pooled and can be inspected. -/
theorem C2_duplicate_insert_overwrites (now : Nat) (pool : Pool) (body : PublishBody)
    (hr : falsyStr body.recipientContactCode = false)
    (he : falsyStr body.encryptedMessage = false)
    (hm : falsyStr body.messageId = false) :
    (handleMessage now pool [] body).response
        = .ok (body.messageId.getD "") false true ∧
    mapGet (handleMessage now pool [] body).pool (body.messageId.getD "")
        = some ⟨body.messageId.getD "", body.recipientContactCode.getD "",
                body.encryptedMessage.getD "", now, body.ttl.getD 86400000, 0, 3⟩ := by
  unfold handleMessage
  rw [hr, he, hm]
  simp only [Bool.or_self, Bool.or_false, Bool.false_or, if_false]
  exact ⟨rfl, mapGet_mapSet_self _ _ _⟩

theorem C2_duplicate_insert_overwrites_witness :
    (handleMessage 5 [("m1", ⟨"m1", "R", "A", 0, 1000, 0, 3⟩)] []
        ⟨some "R", some "B", some "m1", some 1000⟩).response
      = .ok "m1" false true ∧
    mapGet (handleMessage 5 [("m1", ⟨"m1", "R", "A", 0, 1000, 0, 3⟩)] []
        ⟨some "R", some "B", some "m1", some 1000⟩).pool "m1"
      = some ⟨"m1", "R", "B", 5, 1000, 0, 3⟩ :=
  C2_duplicate_insert_overwrites 5 [("m1", ⟨"m1", "R", "A", 0, 1000, 0, 3⟩)]
    ⟨some "R", some "B", some "m1", some 1000⟩ rfl rfl rfl

/-- C3: the claim that every well-formed inbound frame updates `last_seen`
fails: a session registered at time 0 that receives a `status_update` frame
at time 100000 keeps `last_seen = 0`, and the session sweep at time 300001
removes it although an inbound frame arrived 200001 ms earlier. -/
theorem C3_counterexample :
    handleWebSocketMessage 100000 [("s", ⟨"R", 0, "online", true⟩)] "s" true
        .statusUpdate
      = [("s", ⟨"R", 0, "online", true⟩)] ∧
    (cleanupInactiveSessions 300001
        (handleWebSocketMessage 100000 [("s", ⟨"R", 0, "online", true⟩)] "s" true
          .statusUpdate)).1
      = [] := by decide

/-- C3 (amended): only a well-formed `register_user` frame touches
`last_seen` (it re-registers the session with `last_seen` set to the current
time); `status_update`, `real_time_message` and unknown frames leave every
surviving registry entry unchanged.  The sweep therefore keeps a session
exactly when at most 5 minutes have passed since its last registration,
regardless of other inbound frames. -/
theorem C3_lastSeen_only_register (now swNow : Nat) (sessions : SessionMap)
    (sid c r : String) (wsOk : Bool) (hc : c ≠ "") :
    handleWebSocketMessage now sessions sid wsOk .statusUpdate = sessions ∧
    handleWebSocketMessage now sessions sid wsOk .unknownType = sessions ∧
    (∀ p ∈ handleWebSocketMessage now sessions sid wsOk (.realTimeMessage r),
       p ∈ sessions) ∧
    mapGet (handleWebSocketMessage now sessions sid wsOk (.registerUser (some c))) sid
      = some ⟨c, now, "online", wsOk⟩ ∧
    ∀ p ∈ sessions,
      (p ∈ (cleanupInactiveSessions swNow sessions).1 ↔
        ¬ sessionTimeout < swNow - p.2.lastSeen) := by
  refine ⟨rfl, rfl, ?_, ?_, ?_⟩
  · intro p hp
    exact List.mem_of_mem_filter hp
  · show mapGet (registerUser now sessions sid wsOk (some c)) sid = _
    simp only [registerUser]
    rw [if_neg (by simpa using hc)]
    exact mapGet_mapSet_self _ _ _
  · intro p hp
    unfold cleanupInactiveSessions
    simp [List.mem_filter, hp]

theorem C3_lastSeen_only_register_witness :
    handleWebSocketMessage 7 [("s", ⟨"R", 0, "online", true⟩)] "s" true
        .statusUpdate
      = [("s", ⟨"R", 0, "online", true⟩)] ∧
    handleWebSocketMessage 7 [("s", ⟨"R", 0, "online", true⟩)] "s" true
        .unknownType
      = [("s", ⟨"R", 0, "online", true⟩)] ∧
    (∀ p ∈ handleWebSocketMessage 7 [("s", ⟨"R", 0, "online", true⟩)] "s" true
        (.realTimeMessage "Q"), p ∈ [("s", (⟨"R", 0, "online", true⟩ : Session))]) ∧
    mapGet (handleWebSocketMessage 7 [("s", ⟨"R", 0, "online", true⟩)] "s" true
        (.registerUser (some "R2"))) "s"
      = some ⟨"R2", 7, "online", true⟩ ∧
    ∀ p ∈ [("s", (⟨"R", 0, "online", true⟩ : Session))],
      (p ∈ (cleanupInactiveSessions 9 [("s", ⟨"R", 0, "online", true⟩)]).1 ↔
        ¬ sessionTimeout < 9 - p.2.lastSeen) :=
  C3_lastSeen_only_register 7 9 [("s", ⟨"R", 0, "online", true⟩)] "s" "R2" "Q" true
    (by decide)

/-- C4: the claim that registering the same node twice leaves the registry
size unchanged fails: the node set holds freshly allocated objects, so two
`register_node` calls with the same URL and key grow it from 0 to 1 to 2. -/
theorem C4_counterexample :
    (registerNode 0 [] ⟨some "https://n", some "k"⟩).1.length = 1 ∧
    (registerNode 1 (registerNode 0 [] ⟨some "https://n", some "k"⟩).1
        ⟨some "https://n", some "k"⟩).1.length = 2 := by decide

/-- C4 (amended): every register-node call with both fields present appends
a fresh entry: the registry size grows by one and the response reports the
grown size, also when an entry with the same URL and key is already
present; nothing is deduplicated or refreshed in place. -/
theorem C4_register_appends (now : Nat) (nodes : List NodeEntry)
    (b : RegisterNodeBody)
    (hu : falsyStr b.nodeUrl = false) (hk : falsyStr b.publicKey = false) :
    (registerNode now nodes b).1.length = nodes.length + 1 ∧
    (registerNode now nodes b).2 = .ok (nodes.length + 1) := by
  unfold registerNode
  rw [hu, hk]
  simp

theorem C4_register_appends_witness :
    (registerNode 1 [⟨"https://n", "k", 0⟩] ⟨some "https://n", some "k"⟩).1.length
      = 1 + 1 ∧
    (registerNode 1 [⟨"https://n", "k", 0⟩] ⟨some "https://n", some "k"⟩).2
      = .ok (1 + 1) :=
  C4_register_appends 1 [⟨"https://n", "k", 0⟩] ⟨some "https://n", some "k"⟩ rfl rfl


/-- C5: for a well-formed publish, `delivered` is true exactly when the
`new_message` write succeeds for at least one session bound to the
recipient (some bound session with a working channel exists); when
delivered the envelope is gone from the pool, otherwise the freshly built
envelope stays pooled; and `pooled` is always the negation of `delivered`
in the response. -/
theorem C5_delivered_iff_write_succeeds (now : Nat) (pool : Pool)
    (sessions : SessionMap) (rc payload mid : String) (ttl : Nat)
    (hr : rc ≠ "") (he : payload ≠ "") (hm : mid ≠ "") :
    (handleMessage now pool sessions ⟨some rc, some payload, some mid, some ttl⟩).response
      = .ok mid (sessions.any fun p => p.2.contactCode == rc && p.2.sendOk)
          (!(sessions.any fun p => p.2.contactCode == rc && p.2.sendOk)) ∧
    ((sessions.any fun p => p.2.contactCode == rc && p.2.sendOk) = true →
      mapGet (handleMessage now pool sessions
          ⟨some rc, some payload, some mid, some ttl⟩).pool mid = none) ∧
    ((sessions.any fun p => p.2.contactCode == rc && p.2.sendOk) = false →
      mapGet (handleMessage now pool sessions
          ⟨some rc, some payload, some mid, some ttl⟩).pool mid
        = some ⟨mid, rc, payload, now, ttl, 0, 3⟩) := by
  have hfr : falsyStr (some rc) = false := by simpa [falsyStr] using hr
  have hfe : falsyStr (some payload) = false := by simpa [falsyStr] using he
  have hfm : falsyStr (some mid) = false := by simpa [falsyStr] using hm
  have hdel := attemptDirectDelivery_delivered sessions
    ⟨mid, rc, payload, now, ttl, 0, 3⟩
  unfold handleMessage
  rw [hfr, hfe, hfm]
  simp only [Bool.or_self, Bool.or_false, Bool.false_or, if_false, Option.getD]
  refine ⟨?_, ?_, ?_⟩
  · rw [hdel]
    rfl
  · intro hany
    rw [hdel, hany]
    exact mapGet_mapDelete_self _ _
  · intro hany
    rw [hdel, hany]
    exact mapGet_mapSet_self _ _ _

theorem C5_delivered_iff_write_succeeds_witness :
    ((handleMessage 9 [] [("s1", (⟨"R", 0, "online", true⟩ : Session))]
        ⟨some "R", some "X", some "m1", some 500⟩).response
      = .ok "m1"
          (List.any [("s1", (⟨"R", 0, "online", true⟩ : Session))]
            fun p => p.2.contactCode == "R" && p.2.sendOk)
          (!(List.any [("s1", (⟨"R", 0, "online", true⟩ : Session))]
            fun p => p.2.contactCode == "R" && p.2.sendOk))) ∧
    ((List.any [("s1", (⟨"R", 0, "online", true⟩ : Session))]
        fun p => p.2.contactCode == "R" && p.2.sendOk) = true →
      mapGet (handleMessage 9 [] [("s1", (⟨"R", 0, "online", true⟩ : Session))]
          ⟨some "R", some "X", some "m1", some 500⟩).pool "m1" = none) ∧
    ((List.any [("s1", (⟨"R", 0, "online", true⟩ : Session))]
        fun p => p.2.contactCode == "R" && p.2.sendOk) = false →
      mapGet (handleMessage 9 [] [("s1", (⟨"R", 0, "online", true⟩ : Session))]
          ⟨some "R", some "X", some "m1", some 500⟩).pool "m1"
        = some ⟨"m1", "R", "X", 9, 500, 0, 3⟩) :=
  C5_delivered_iff_write_succeeds 9 [] [("s1", (⟨"R", 0, "online", true⟩ : Session))]
    "R" "X" "m1" 500 (by decide) (by decide) (by decide)

/-- C6: a single pull removes from the pool and returns, in insertion
order, exactly the pooled envelopes whose recipient matches, so a second
pull with no interleaved publish returns an empty list. -/
theorem C6_pull_drains_recipient (pool : Pool) (R : String) :
    (getMessages pool R).2
      = (pool.filter (fun p => p.2.recipientContactCode == R)).map
          (fun p => ⟨p.1, p.2.encryptedMessage, p.2.timestamp⟩) ∧
    (getMessages pool R).1
      = pool.filter (fun p => p.2.recipientContactCode != R) ∧
    (getMessages (getMessages pool R).1 R).2 = [] := by
  have h := getMessages_eq pool R
  refine ⟨by rw [h], by rw [h], ?_⟩
  rw [h, getMessages_eq]
  simp only [List.map_eq_nil_iff, List.filter_eq_nil_iff]
  intro p hp
  have hb := (List.mem_filter.mp hp).2
  simpa using hb

/-- C7: the claim that the sweep removes an envelope whose expiry instant
equals the sweep instant fails: an envelope created at 0 with ttl 100 is
retained by a sweep at instant 100 and the removal count is 0 (the code
removes only on `now - timestamp > ttl`, a strict comparison). -/
theorem C7_counterexample :
    cleanupExpiredMessages 100 [("m1", ⟨"m1", "R", "X", 0, 100, 0, 3⟩)]
      = ([("m1", ⟨"m1", "R", "X", 0, 100, 0, 3⟩)], 0) := by decide

/-- C7 (amended): the envelope sweep removes exactly those envelopes whose
`created_at + ttl` is strictly before the sweep instant, returning their
number; an envelope whose expiry instant equals the sweep instant, like
every not-yet-expired envelope, stays in the pool. -/
theorem C7_expire_strictly_before (now : Nat) (pool : Pool) :
    (∀ p ∈ pool,
      (p ∈ (cleanupExpiredMessages now pool).1 ↔ now ≤ p.2.timestamp + p.2.ttl)) ∧
    (cleanupExpiredMessages now pool).2
      = (pool.filter fun p => decide (p.2.timestamp + p.2.ttl < now)).length ∧
    (cleanupExpiredMessages now pool).1.length + (cleanupExpiredMessages now pool).2
      = pool.length := by
  have hkeep : ∀ p : String × Message,
      (!decide (p.2.ttl < now - p.2.timestamp))
        = decide (now ≤ p.2.timestamp + p.2.ttl) := by
    intro p
    by_cases h : p.2.ttl < now - p.2.timestamp
    · have h2 : ¬ now ≤ p.2.timestamp + p.2.ttl := by omega
      simp [h, h2]
    · have h2 : now ≤ p.2.timestamp + p.2.ttl := by omega
      simp [h, h2]
  have hrem : ∀ p : String × Message,
      decide (p.2.ttl < now - p.2.timestamp)
        = decide (p.2.timestamp + p.2.ttl < now) := by
    intro p
    exact decide_eq_decide.mpr (by omega)
  unfold cleanupExpiredMessages
  refine ⟨?_, ?_, ?_⟩
  · intro p hp
    simp only [List.mem_filter, hp, true_and]
    rw [hkeep p]
    exact decide_eq_true_iff
  · exact congrArg List.length (List.filter_congr (fun p _ => hrem p))
  · exact length_filter_not_add_length_filter pool _


/-- C8: a publish whose body is missing (or has an empty) recipient code,
payload, or message identifier is answered with the bad-request response
and changes nothing: the pool and session registry are untouched, no
`new_message` frame is written, and replication is not attempted. -/
theorem C8_missing_field_rejected (now : Nat) (pool : Pool)
    (sessions : SessionMap) (body : PublishBody)
    (h : falsyStr body.recipientContactCode = true ∨
         falsyStr body.encryptedMessage = true ∨
         falsyStr body.messageId = true) :
    handleMessage now pool sessions body
      = ⟨pool, sessions, [], .badRequest, false⟩ := by
  unfold handleMessage
  rcases h with h | h | h <;> rw [h] <;> simp

theorem C8_missing_field_rejected_witness :
    handleMessage 3 [("m0", ⟨"m0", "Q", "Y", 0, 9, 0, 3⟩)]
        [("s1", (⟨"R", 0, "online", true⟩ : Session))]
        ⟨some "R", some "X", none, none⟩
      = ⟨[("m0", ⟨"m0", "Q", "Y", 0, 9, 0, 3⟩)],
         [("s1", (⟨"R", 0, "online", true⟩ : Session))], [], .badRequest, false⟩ :=
  C8_missing_field_rejected 3 [("m0", ⟨"m0", "Q", "Y", 0, 9, 0, 3⟩)]
    [("s1", (⟨"R", 0, "online", true⟩ : Session))]
    ⟨some "R", some "X", none, none⟩ (Or.inr (Or.inr rfl))

/-- C9: deletion is idempotent.  Deleting a pooled identifier reports
`true` and removes the entry; a second delete of the same identifier with
no interleaved publish reports `false` in its Boolean response and leaves
the pool unchanged. -/
theorem C9_delete_idempotent (pool : Pool) (i : String)
    (h : mapHas pool i = true) :
    (deleteMessage pool i).2 = true ∧
    mapGet (deleteMessage pool i).1 i = none ∧
    (deleteMessage (deleteMessage pool i).1 i).2 = false ∧
    (deleteMessage (deleteMessage pool i).1 i).1 = (deleteMessage pool i).1 :=
  ⟨h, mapGet_mapDelete_self pool i, mapHas_mapDelete_self pool i,
   mapDelete_mapDelete pool i⟩

theorem C9_delete_idempotent_witness :
    (deleteMessage [("m1", ⟨"m1", "R", "X", 0, 9, 0, 3⟩)] "m1").2 = true ∧
    mapGet (deleteMessage [("m1", ⟨"m1", "R", "X", 0, 9, 0, 3⟩)] "m1").1 "m1"
      = none ∧
    (deleteMessage (deleteMessage [("m1", ⟨"m1", "R", "X", 0, 9, 0, 3⟩)] "m1").1
        "m1").2 = false ∧
    (deleteMessage (deleteMessage [("m1", ⟨"m1", "R", "X", 0, 9, 0, 3⟩)] "m1").1
        "m1").1
      = (deleteMessage [("m1", ⟨"m1", "R", "X", 0, 9, 0, 3⟩)] "m1").1 :=
  C9_delete_idempotent [("m1", ⟨"m1", "R", "X", 0, 9, 0, 3⟩)] "m1" (by decide)

/-- C10: a pull returns and removes every pooled envelope addressed to the
recipient with no regard to its expiry instant (the pull handler consults
no clock at all), so an envelope whose `created_at + ttl` has passed is
still delivered by a pull that precedes the next envelope sweep. -/
theorem C10_pull_ignores_expiry (pool : Pool) (R : String)
    (p : String × Message) (hp : p ∈ pool)
    (hr : p.2.recipientContactCode = R) :
    (⟨p.1, p.2.encryptedMessage, p.2.timestamp⟩ : PulledMessage)
      ∈ (getMessages pool R).2 ∧
    p ∉ (getMessages pool R).1 := by
  rw [getMessages_eq]
  constructor
  · exact List.mem_map_of_mem _ (List.mem_filter.mpr ⟨hp, by simp [hr]⟩)
  · intro hmem
    have hb := (List.mem_filter.mp hmem).2
    simp [hr] at hb

theorem C10_pull_ignores_expiry_witness :
    (⟨"m1", "X", 0⟩ : PulledMessage)
      ∈ (getMessages [("m1", ⟨"m1", "R", "X", 0, 1, 0, 3⟩)] "R").2 ∧
    ("m1", (⟨"m1", "R", "X", 0, 1, 0, 3⟩ : Message))
      ∉ (getMessages [("m1", ⟨"m1", "R", "X", 0, 1, 0, 3⟩)] "R").1 :=
  C10_pull_ignores_expiry [("m1", ⟨"m1", "R", "X", 0, 1, 0, 3⟩)] "R"
    ("m1", ⟨"m1", "R", "X", 0, 1, 0, 3⟩) (by decide) rfl

end NonMessenger
